import Mathlib

/-!
# EndPointMonitor Terraform provider: configuration and search data sources

A shallow embedding of

* `internal/provider/provider.go` (`endPointMonitorProvider.Configure`),
* `internal/provider/data_source_check.go` (`CheckDataSource.Read`),
* `internal/provider/data_source_android_journey_common_steps.go`
  (`AndroidJourneyCommonStepsDataSource.Read`).

Go methods that mutate the response through a pointer are functions from the
response before the call to the response after it.  The pieces of the
terraform-plugin-framework the three functions touch (`types.String`,
`diag.Diagnostics`, `req.Config.Get`, `resp.State.Set`) are modelled in the
first section; `os.Getenv`, `NewEPMClient` and the search methods of the client
are parameters.
-/

namespace EndPointMonitor

/-! ## The framework values the provider code uses -/

/-- Severity of a diagnostic (`diag.SeverityError`, `diag.SeverityWarning`). -/
inductive Severity where
  | error
  | warning
deriving DecidableEq, Repr

/-- One diagnostic.  `attributePath` is `some a` for a diagnostic built with
`path.Root(a)` (`AddAttributeError`) and `none` for one without a path
(`AddError`). -/
structure Diagnostic where
  severity : Severity
  attributePath : Option String
  summary : String
  detail : String
deriving DecidableEq, Repr

/-- The ordered collection `diag.Diagnostics`. -/
abbrev Diagnostics := List Diagnostic

/-- The framework method `Diagnostics.Append`: every incoming diagnostic that is not
already contained in the collection is added at the end, in order. -/
def Diagnostics.Append (diags : Diagnostics) (new : List Diagnostic) : Diagnostics :=
  new.foldl (fun acc d => if d ∈ acc then acc else acc ++ [d]) diags

/-- The method `Diagnostics.AddError(summary, detail)`: appends an error without a path. -/
def Diagnostics.AddError (diags : Diagnostics) (summary detail : String) : Diagnostics :=
  Diagnostics.Append diags [⟨Severity.error, none, summary, detail⟩]

/-- The method `Diagnostics.AddAttributeError(path.Root(attr), summary, detail)`:
appends an error attached to the attribute `attr`. -/
def Diagnostics.AddAttributeError (diags : Diagnostics) (attr summary detail : String) :
    Diagnostics :=
  Diagnostics.Append diags [⟨Severity.error, some attr, summary, detail⟩]

/-- The method `Diagnostics.HasError()`: some entry has error severity. -/
def Diagnostics.HasError (diags : Diagnostics) : Bool :=
  diags.any (fun d => d.severity == Severity.error)

/-- A `types.String`: null, unknown, or a known string. -/
inductive StringValue where
  | null
  | unknown
  | known (s : String)
deriving DecidableEq, Repr

/-- The method `IsNull()`. -/
def StringValue.IsNull : StringValue → Bool
  | .null => true
  | _ => false

/-- The method `IsUnknown()`. -/
def StringValue.IsUnknown : StringValue → Bool
  | .unknown => true
  | _ => false

/-- The method `ValueString()`: the known string, and `""` for null and unknown. -/
def StringValue.ValueString : StringValue → String
  | .known s => s
  | _ => ""

/-! ## provider.go -/

/-- The struct `endPointMonitorProviderModel` (provider.go, lines 30-33). -/
structure endPointMonitorProviderModel where
  Url : StringValue
  Key : StringValue
deriving DecidableEq, Repr

/-- A `provider.ConfigureRequest`, reduced to what `req.Config.Get(ctx, &config)`
yields: the decoded model and the diagnostics of the decoding. -/
structure ConfigureRequest where
  Config : endPointMonitorProviderModel
  getDiags : Diagnostics
deriving DecidableEq, Repr

/-- A `provider.ConfigureResponse`; `Client` is the type `NewEPMClient` returns. -/
structure ConfigureResponse (Client : Type) where
  Diagnostics : Diagnostics
  DataSourceData : Option Client
  ResourceData : Option Client
deriving DecidableEq, Repr

/-- The response the framework passes to `Configure`: nothing set. -/
def ConfigureResponse.fresh (Client : Type) : ConfigureResponse Client :=
  ⟨[], none, none⟩

/-- The diagnostic that provider.go lines 78-83 add. -/
def unknownUrlDiagnostic : Diagnostic :=
  ⟨Severity.error, some "url", "Unknown EndPointMonitor URL",
    "The provider cannot create the EndPointMonitor client as there is an unknown configuration value for the EndPointMonitor URL. " ++
      "Either target apply the source of the value first, set the value statically in the configuration, or use the EPM_URL environment variable."⟩

/-- The diagnostic that provider.go lines 87-92 add. -/
def unknownKeyDiagnostic : Diagnostic :=
  ⟨Severity.error, some "key", "Unknown EndPointMonitor API Key",
    "The provider cannot create the EndPointMonitor client as there is an unknown configuration value for the EndPointMonitor API key. " ++
      "Either target apply the source of the value first, set the value statically in the configuration, or use the EPM_API_KEY environment variable."⟩

/-- The diagnostic that provider.go lines 117-123 add. -/
def missingUrlDiagnostic : Diagnostic :=
  ⟨Severity.error, some "host", "Missing EndPointMonitor URL",
    "The provider cannot create the EndPointMonitor client as there is a missing or empty value for the EndPointMonitor API host. " ++
      "Set the host value in the configuration or use the EPM_URL environment variable. " ++
      "If either is already set, ensure the value is not empty."⟩

/-- The diagnostic that provider.go lines 127-133 add. -/
def missingKeyDiagnostic : Diagnostic :=
  ⟨Severity.error, some "username", "Missing EndPointMonitor API Key",
    "The provider cannot create the EndPointMonitor client as there is a missing or empty value for the EndPointMonitor API key. " ++
      "Set the username value in the configuration or use the EPM_API_KEY environment variable. " ++
      "If either is already set, ensure the value is not empty."⟩

/-- The diagnostic that provider.go lines 149-154 add for the error text `err`. -/
def clientErrorDiagnostic (err : String) : Diagnostic :=
  ⟨Severity.error, none, "Unable to Create EndPointMonitor Client",
    "An unexpected error occurred when creating the EndPointMonitor client. " ++
      "If the error is not clear, please contact the provider developers.\n\n" ++
      "Client Error: " ++ err⟩

/-- Provider.go lines 77-93: the two unknown-value checks, in order. -/
def unknownChecks (config : endPointMonitorProviderModel) (diags : Diagnostics) : Diagnostics :=
  let diags :=
    if config.Url.IsUnknown then
      Diagnostics.AddAttributeError diags "url"
        "Unknown EndPointMonitor URL"
        ("The provider cannot create the EndPointMonitor client as there is an unknown configuration value for the EndPointMonitor URL. " ++
          "Either target apply the source of the value first, set the value statically in the configuration, or use the EPM_URL environment variable.")
    else diags
  let diags :=
    if config.Key.IsUnknown then
      Diagnostics.AddAttributeError diags "key"
        "Unknown EndPointMonitor API Key"
        ("The provider cannot create the EndPointMonitor client as there is an unknown configuration value for the EndPointMonitor API key. " ++
          "Either target apply the source of the value first, set the value statically in the configuration, or use the EPM_API_KEY environment variable.")
    else diags
  diags

/-- Provider.go lines 102-111: both values default to the environment variable
and are overridden by the configuration value when that is not null. -/
def resolve (getenv : String → String) (config : endPointMonitorProviderModel) : String × String :=
  let url := getenv "EPM_URL"
  let key := getenv "EPM_API_KEY"
  let url := if !config.Url.IsNull then config.Url.ValueString else url
  let key := if !config.Key.IsNull then config.Key.ValueString else key
  (url, key)

/-- Provider.go lines 116-134: the two empty-value checks, in order. -/
def missingChecks (url key : String) (diags : Diagnostics) : Diagnostics :=
  let diags :=
    if url == "" then
      Diagnostics.AddAttributeError diags "host"
        "Missing EndPointMonitor URL"
        ("The provider cannot create the EndPointMonitor client as there is a missing or empty value for the EndPointMonitor API host. " ++
          "Set the host value in the configuration or use the EPM_URL environment variable. " ++
          "If either is already set, ensure the value is not empty.")
    else diags
  let diags :=
    if key == "" then
      Diagnostics.AddAttributeError diags "username"
        "Missing EndPointMonitor API Key"
        ("The provider cannot create the EndPointMonitor client as there is a missing or empty value for the EndPointMonitor API key. " ++
          "Set the username value in the configuration or use the EPM_API_KEY environment variable. " ++
          "If either is already set, ensure the value is not empty.")
    else diags
  diags

/-- The method `endPointMonitorProvider.Configure` (provider.go, lines 63-164); `getenv` is
`os.Getenv`, `NewEPMClient` the client constructor (an error is its text). -/
def Configure {Client : Type} (getenv : String → String)
    (NewEPMClient : String → String → Except String Client)
    (req : ConfigureRequest) (resp : ConfigureResponse Client) : ConfigureResponse Client :=
  let config := req.Config
  let resp := { resp with Diagnostics := Diagnostics.Append resp.Diagnostics req.getDiags }
  if resp.Diagnostics.HasError then resp else
  let resp := { resp with Diagnostics := unknownChecks config resp.Diagnostics }
  if resp.Diagnostics.HasError then resp else
  let (url, key) := resolve getenv config
  let resp := { resp with Diagnostics := missingChecks url key resp.Diagnostics }
  if resp.Diagnostics.HasError then resp else
  match NewEPMClient url key with
  | .error err =>
    let diags :=
      Diagnostics.AddError resp.Diagnostics
        "Unable to Create EndPointMonitor Client"
        ("An unexpected error occurred when creating the EndPointMonitor client. " ++
          "If the error is not clear, please contact the provider developers.\n\n" ++
          "Client Error: " ++ err)
    { resp with Diagnostics := diags }
  | .ok client =>
    { resp with DataSourceData := some client, ResourceData := some client }

/-! ## The search data sources -/

/-- Modelled from the spec: the type `EndPointMonitorClient` is declared outside
the files at hand.  Only the two search methods the data sources call are
represented, as fields: each takes the search text and returns the identifiers in
the order the remote search gave them, or the text of an error. -/
structure EndPointMonitorClient where
  SearchChecks : String → Except String (List Int)
  SearchAndroidJoureyCommonSteps : String → Except String (List Int)

/-- Modelled from the spec: the type `GenericSingleDataSource64` is declared
outside the files at hand; `Read` uses its fields `Search` (a string value) and
`Id` (assigned one element of the search result, an int64 by the schema). -/
structure GenericSingleDataSource64 where
  Search : StringValue
  Id : Int
deriving DecidableEq, Repr

/-- Modelled from the spec: the type `GenericMultipleDataSource` is declared
outside the files at hand; `Read` uses its fields `Search` (a string value) and
`Ids` (assigned the whole search result, an ordered sequence of identifiers). -/
structure GenericMultipleDataSource where
  Search : StringValue
  Ids : List Int
deriving DecidableEq, Repr

/-- A `datasource.ReadRequest`, reduced to what `req.Config.Get(ctx, &data)`
yields for the model type `M`: the decoded model and the diagnostics. -/
structure ReadRequest (M : Type) where
  Config : M
  getDiags : Diagnostics

/-- A `datasource.ReadResponse`: the diagnostics and the state, which is `none`
until a model has been saved into it. -/
structure ReadResponse (M : Type) where
  Diagnostics : Diagnostics
  State : Option M
deriving DecidableEq, Repr

/-- The response the framework passes to `Read`: nothing set. -/
def ReadResponse.fresh (M : Type) : ReadResponse M :=
  ⟨[], none⟩

/-- The call `resp.State.Set(ctx, &data)`: saves the model and returns its diagnostics,
none for a model that fits the schema. -/
def StateSet {M : Type} (data : M) : Option M × Diagnostics :=
  (some data, [])

/-- The method `CheckDataSource.Read` (data_source_check.go, lines 41-68). -/
def CheckDataSource.Read (client : EndPointMonitorClient)
    (req : ReadRequest GenericSingleDataSource64)
    (resp : ReadResponse GenericSingleDataSource64) : ReadResponse GenericSingleDataSource64 :=
  let data := req.Config
  let resp := { resp with Diagnostics := Diagnostics.Append resp.Diagnostics req.getDiags }
  match client.SearchChecks data.Search.ValueString with
  | .error err =>
    let diags :=
      Diagnostics.AddError resp.Diagnostics
        "Error searching check"
        ("Could not search check, unexpected error: " ++ err)
    { resp with Diagnostics := diags }
  | .ok ids =>
    if h : ids.length ≠ 1 then
      let diags :=
        Diagnostics.AddError resp.Diagnostics
          "None or more than one matching check found"
          "None or more than one matching check found when searching for single id"
      { resp with Diagnostics := diags }
    else
      let data := { data with Id := ids.get ⟨0, by omega⟩ }
      let (state, diags) := StateSet data
      { State := state, Diagnostics := Diagnostics.Append resp.Diagnostics diags }

/-- The method `AndroidJourneyCommonStepsDataSource.Read`
(data_source_android_journey_common_steps.go, lines 43-62). -/
def AndroidJourneyCommonStepsDataSource.Read (client : EndPointMonitorClient)
    (req : ReadRequest GenericMultipleDataSource)
    (resp : ReadResponse GenericMultipleDataSource) : ReadResponse GenericMultipleDataSource :=
  let data := req.Config
  let resp := { resp with Diagnostics := Diagnostics.Append resp.Diagnostics req.getDiags }
  match client.SearchAndroidJoureyCommonSteps data.Search.ValueString with
  | .error err =>
    let diags :=
      Diagnostics.AddError resp.Diagnostics
        "Error searching android journey common steps"
        ("Could not search android journey common steps, unexpected error: " ++ err)
    { resp with Diagnostics := diags }
  | .ok ids =>
    let data := { data with Ids := ids }
    let (state, diags) := StateSet data
    { State := state, Diagnostics := Diagnostics.Append resp.Diagnostics diags }

/-- The diagnostic that data_source_check.go lines 57-60 add. -/
def notSingleDiagnostic : Diagnostic :=
  ⟨Severity.error, none, "None or more than one matching check found",
    "None or more than one matching check found when searching for single id"⟩

/-- The diagnostic that data_source_check.go lines 49-52 add for the error text `err`. -/
def checkSearchErrorDiagnostic (err : String) : Diagnostic :=
  ⟨Severity.error, none, "Error searching check",
    "Could not search check, unexpected error: " ++ err⟩

/-- The diagnostic that data_source_android_journey_common_steps.go lines 51-54
add for the error text `err`. -/
def stepsSearchErrorDiagnostic (err : String) : Diagnostic :=
  ⟨Severity.error, none, "Error searching android journey common steps",
    "Could not search android journey common steps, unexpected error: " ++ err⟩

/-! ## Concrete inputs for the examples -/

/-- An environment in which no variable is set. -/
def emptyEnv : String → String := fun _ => ""

/-- An environment in which only `EPM_URL` is set, to `https://x`. -/
def urlEnv : String → String := fun name => if name = "EPM_URL" then "https://x" else ""

/-- An environment with both variables set. -/
def fullEnv : String → String := fun name =>
  if name = "EPM_URL" then "https://env" else if name = "EPM_API_KEY" then "envkey" else ""

/-- A client constructor that keeps the two values it is given. -/
def pairClient : String → String → Except String (String × String) := fun url key => .ok (url, key)

/-- A client whose searches return the list `ids`. -/
def listClient (ids : List Int) : EndPointMonitorClient :=
  ⟨fun _ => .ok ids, fun _ => .ok ids⟩

/-- A client whose searches fail with the error text `err`. -/
def failingClient (err : String) : EndPointMonitorClient :=
  ⟨fun _ => .error err, fun _ => .error err⟩

/-- A request for a single check by search text. -/
def singleRequest (text : String) : ReadRequest GenericSingleDataSource64 :=
  ⟨⟨StringValue.known text, 0⟩, []⟩

/-- A request for a list of common steps by search text. -/
def multipleRequest (text : String) : ReadRequest GenericMultipleDataSource :=
  ⟨⟨StringValue.known text, []⟩, []⟩

/-! ## The diagnostics collection -/

theorem Append_nil (ds : Diagnostics) : Diagnostics.Append ds [] = ds := rfl

theorem Append_singleton (ds : Diagnostics) (d : Diagnostic) :
    Diagnostics.Append ds [d] = if d ∈ ds then ds else ds ++ [d] := rfl

theorem mem_Append_singleton_self (ds : Diagnostics) (d : Diagnostic) :
    d ∈ Diagnostics.Append ds [d] := by
  rw [Append_singleton]
  split
  · assumption
  · simp

theorem mem_Append_singleton_of_mem (ds : Diagnostics) (d e : Diagnostic) (h : e ∈ ds) :
    e ∈ Diagnostics.Append ds [d] := by
  rw [Append_singleton]
  split
  · assumption
  · simp [h]

theorem HasError_Append_error (ds : Diagnostics) (d : Diagnostic)
    (hd : d.severity = Severity.error) :
    Diagnostics.HasError (Diagnostics.Append ds [d]) = true := by
  have hmem := mem_Append_singleton_self ds d
  simp only [Diagnostics.HasError, List.any_eq_true]
  exact ⟨d, hmem, by simp [hd]⟩

theorem HasError_of_mem (ds : Diagnostics) (d : Diagnostic) (hmem : d ∈ ds)
    (hd : d.severity = Severity.error) : Diagnostics.HasError ds = true := by
  simp only [Diagnostics.HasError, List.any_eq_true]
  exact ⟨d, hmem, by simp [hd]⟩

/-! ## The phases of `Configure` -/

theorem unknownChecks_eq (config : endPointMonitorProviderModel) (ds : Diagnostics) :
    unknownChecks config ds =
      (let ds1 := if config.Url.IsUnknown then Diagnostics.Append ds [unknownUrlDiagnostic] else ds
       if config.Key.IsUnknown then Diagnostics.Append ds1 [unknownKeyDiagnostic] else ds1) := rfl

theorem missingChecks_eq (url key : String) (ds : Diagnostics) :
    missingChecks url key ds =
      (let ds1 := if url == "" then Diagnostics.Append ds [missingUrlDiagnostic] else ds
       if key == "" then Diagnostics.Append ds1 [missingKeyDiagnostic] else ds1) := rfl

theorem unknownChecks_known (config : endPointMonitorProviderModel) (ds : Diagnostics)
    (hu : config.Url.IsUnknown = false) (hk : config.Key.IsUnknown = false) :
    unknownChecks config ds = ds := by
  simp [unknownChecks_eq, hu, hk]

theorem unknownChecks_url (config : endPointMonitorProviderModel) (ds : Diagnostics)
    (hu : config.Url.IsUnknown = true) : unknownUrlDiagnostic ∈ unknownChecks config ds := by
  rw [unknownChecks_eq]
  simp only [hu, if_true]
  split
  · exact mem_Append_singleton_of_mem _ _ _ (mem_Append_singleton_self _ _)
  · exact mem_Append_singleton_self _ _

theorem unknownChecks_key (config : endPointMonitorProviderModel) (ds : Diagnostics)
    (hk : config.Key.IsUnknown = true) : unknownKeyDiagnostic ∈ unknownChecks config ds := by
  rw [unknownChecks_eq]
  simp only [hk, if_true]
  exact mem_Append_singleton_self _ _

theorem missingChecks_url (url key : String) (ds : Diagnostics) (hu : url = "") :
    missingUrlDiagnostic ∈ missingChecks url key ds := by
  rw [missingChecks_eq]
  simp only [hu, beq_self_eq_true, if_true]
  split
  · exact mem_Append_singleton_of_mem _ _ _ (mem_Append_singleton_self _ _)
  · exact mem_Append_singleton_self _ _

theorem missingChecks_key (url key : String) (ds : Diagnostics) (hk : key = "") :
    missingKeyDiagnostic ∈ missingChecks url key ds := by
  rw [missingChecks_eq]
  simp only [hk, beq_self_eq_true, if_true]
  exact mem_Append_singleton_self _ _

theorem missingChecks_HasError (url key : String) (ds : Diagnostics)
    (h : Diagnostics.HasError (missingChecks url key ds) = false) : url ≠ "" ∧ key ≠ "" := by
  constructor
  · intro hu
    have := HasError_of_mem _ _ (missingChecks_url url key ds hu) rfl
    simp [this] at h
  · intro hk
    have := HasError_of_mem _ _ (missingChecks_key url key ds hk) rfl
    simp [this] at h

theorem unknownChecks_HasError (config : endPointMonitorProviderModel) (ds : Diagnostics)
    (h : Diagnostics.HasError (unknownChecks config ds) = false) :
    config.Url.IsUnknown = false ∧ config.Key.IsUnknown = false := by
  constructor
  · cases hu : config.Url.IsUnknown
    · rfl
    · have := HasError_of_mem _ _ (unknownChecks_url config ds hu) rfl
      simp [this] at h
  · cases hk : config.Key.IsUnknown
    · rfl
    · have := HasError_of_mem _ _ (unknownChecks_key config ds hk) rfl
      simp [this] at h

/-- The body of `Configure` written out phase by phase. -/
theorem Configure_eq {Client : Type} (getenv : String → String)
    (NewEPMClient : String → String → Except String Client)
    (req : ConfigureRequest) (resp : ConfigureResponse Client) :
    Configure getenv NewEPMClient req resp =
      (let pre := Diagnostics.Append resp.Diagnostics req.getDiags
       if Diagnostics.HasError pre then { resp with Diagnostics := pre } else
       let d1 := unknownChecks req.Config pre
       if Diagnostics.HasError d1 then { resp with Diagnostics := d1 } else
       let d2 := missingChecks (resolve getenv req.Config).1 (resolve getenv req.Config).2 d1
       if Diagnostics.HasError d2 then { resp with Diagnostics := d2 } else
       match NewEPMClient (resolve getenv req.Config).1 (resolve getenv req.Config).2 with
       | .error err =>
         { resp with Diagnostics := Diagnostics.Append d2 [clientErrorDiagnostic err] }
       | .ok client =>
         { Diagnostics := d2, DataSourceData := some client, ResourceData := some client }) := by
  rfl

/-- The five ways `Configure` can end, with the response each one leaves. -/
theorem Configure_cases {Client : Type} (getenv : String → String)
    (NewEPMClient : String → String → Except String Client)
    (req : ConfigureRequest) (resp : ConfigureResponse Client) :
    let pre := Diagnostics.Append resp.Diagnostics req.getDiags
    let d1 := unknownChecks req.Config pre
    let url := (resolve getenv req.Config).1
    let key := (resolve getenv req.Config).2
    let d2 := missingChecks url key d1
    let out := Configure getenv NewEPMClient req resp
    (Diagnostics.HasError pre = true ∧ out = { resp with Diagnostics := pre }) ∨
    (Diagnostics.HasError pre = false ∧ Diagnostics.HasError d1 = true ∧
      out = { resp with Diagnostics := d1 }) ∨
    (Diagnostics.HasError pre = false ∧ Diagnostics.HasError d1 = false ∧
      Diagnostics.HasError d2 = true ∧ out = { resp with Diagnostics := d2 }) ∨
    (Diagnostics.HasError pre = false ∧ Diagnostics.HasError d1 = false ∧
      Diagnostics.HasError d2 = false ∧
      ∃ e, NewEPMClient url key = .error e ∧
        out = { resp with Diagnostics := Diagnostics.Append d2 [clientErrorDiagnostic e] }) ∨
    (Diagnostics.HasError pre = false ∧ Diagnostics.HasError d1 = false ∧
      Diagnostics.HasError d2 = false ∧
      ∃ c, NewEPMClient url key = .ok c ∧
        out = { Diagnostics := d2, DataSourceData := some c, ResourceData := some c }) := by
  intro pre d1 url key d2 out
  have hout : out = Configure getenv NewEPMClient req resp := rfl
  rw [Configure_eq] at hout
  dsimp only at hout
  cases h0 : Diagnostics.HasError pre
  · cases h1 : Diagnostics.HasError d1
    · cases h2 : Diagnostics.HasError d2
      · cases h3 : NewEPMClient url key with
        | error e =>
          right; right; right; left
          refine ⟨rfl, rfl, rfl, e, rfl, ?_⟩
          rw [hout]; simp [pre, d1, d2, url, key] at h0 h1 h2 h3 ⊢; simp [h0, h1, h2, h3]
        | ok c =>
          right; right; right; right
          refine ⟨rfl, rfl, rfl, c, rfl, ?_⟩
          rw [hout]; simp [pre, d1, d2, url, key] at h0 h1 h2 h3 ⊢; simp [h0, h1, h2, h3]
      · right; right; left
        refine ⟨rfl, rfl, rfl, ?_⟩
        rw [hout]; simp [pre, d1, d2, url, key] at h0 h1 h2 ⊢; simp [h0, h1, h2]
    · right; left
      refine ⟨rfl, rfl, ?_⟩
      rw [hout]; simp [pre, d1] at h0 h1 ⊢; simp [h0, h1]
  · left
    refine ⟨rfl, ?_⟩
    rw [hout]; simp [pre] at h0 ⊢; simp [h0]

/-! ## Claims about `Configure` -/

/-- C1: the two connection fields are resolved independently. For every
environment and whatever the other field holds, a declared url that is known
resolves to itself when it is a string and to the value of `EPM_URL` when it is
null; a declared key that is known resolves to itself when it is a string and to
the value of `EPM_API_KEY` when it is null. So a non-null declared value wins
over the environment, one field may come from configuration while the other
comes from the environment, and the pair so resolved is the one the client
handed over by `Configure` was built from. -/
theorem resolve_each_field_independently {Client : Type} (getenv : String → String)
    (NewEPMClient : String → String → Except String Client)
    (req : ConfigureRequest) (resp : ConfigureResponse Client) :
    (∀ u, req.Config.Url = StringValue.known u → (resolve getenv req.Config).1 = u) ∧
    (req.Config.Url = StringValue.null → (resolve getenv req.Config).1 = getenv "EPM_URL") ∧
    (∀ k, req.Config.Key = StringValue.known k → (resolve getenv req.Config).2 = k) ∧
    (req.Config.Key = StringValue.null → (resolve getenv req.Config).2 = getenv "EPM_API_KEY") ∧
    (∀ u, req.Config.Url = StringValue.known u → req.Config.Key = StringValue.null →
      resolve getenv req.Config = (u, getenv "EPM_API_KEY")) ∧
    (∀ k, req.Config.Url = StringValue.null → req.Config.Key = StringValue.known k →
      resolve getenv req.Config = (getenv "EPM_URL", k)) ∧
    (resp.DataSourceData = none →
      ∀ c, (Configure getenv NewEPMClient req resp).DataSourceData = some c →
        NewEPMClient (resolve getenv req.Config).1 (resolve getenv req.Config).2 = .ok c) := by
  refine ⟨?_, ?_, ?_, ?_, ?_, ?_, ?_⟩
  · intro u hu
    simp [resolve, hu, StringValue.IsNull, StringValue.ValueString]
  · intro hu
    simp [resolve, hu, StringValue.IsNull]
  · intro k hk
    simp [resolve, hk, StringValue.IsNull, StringValue.ValueString]
  · intro hk
    simp [resolve, hk, StringValue.IsNull]
  · intro u hu hk
    simp [resolve, hu, hk, StringValue.IsNull, StringValue.ValueString]
  · intro k hu hk
    simp [resolve, hu, hk, StringValue.IsNull, StringValue.ValueString]
  · intro hD c hc
    rcases Configure_cases getenv NewEPMClient req resp with
      ⟨_, h⟩ | ⟨_, _, h⟩ | ⟨_, _, _, h⟩ | ⟨_, _, _, e, _, h⟩ | ⟨_, _, _, c2, hn, h⟩
    · rw [h] at hc; simp [hD] at hc
    · rw [h] at hc; simp [hD] at hc
    · rw [h] at hc; simp [hD] at hc
    · rw [h] at hc; simp [hD] at hc
    · rw [h] at hc
      simp at hc
      rw [← hc]; exact hn

/-- Witness for C1: url from the configuration, key from the environment, and the
client built from exactly that pair. -/
theorem resolve_each_field_independently_witness :
    resolve fullEnv ⟨StringValue.known "https://cfg", StringValue.null⟩ = ("https://cfg", "envkey") ∧
    pairClient "https://cfg" "envkey" = .ok ("https://cfg", "envkey") :=
  ⟨(resolve_each_field_independently fullEnv pairClient
      ⟨⟨StringValue.known "https://cfg", StringValue.null⟩, []⟩
      (ConfigureResponse.fresh _)).2.2.2.2.1 "https://cfg" rfl rfl,
   (resolve_each_field_independently fullEnv pairClient
      ⟨⟨StringValue.known "https://cfg", StringValue.null⟩, []⟩
      (ConfigureResponse.fresh _)).2.2.2.2.2.2 rfl ("https://cfg", "envkey") rfl⟩

/-- C4: when the configuration decoded without error and a declared field is
unknown, `Configure` emits the error diagnostic attached to that field (`url`
resp. `key`), ends with an error, leaves `DataSourceData` and `ResourceData`
unset, and its whole result is the same for every environment and every client
constructor: the environment variable is not consulted as a fallback. This holds
whatever the other field is declared as. -/
theorem Configure_unknown_is_fatal {Client : Type} (getenv : String → String)
    (NewEPMClient : String → String → Except String Client)
    (req : ConfigureRequest) (resp : ConfigureResponse Client)
    (hdec : Diagnostics.HasError (Diagnostics.Append resp.Diagnostics req.getDiags) = false)
    (hD : resp.DataSourceData = none) (hR : resp.ResourceData = none)
    (hunk : req.Config.Url = StringValue.unknown ∨ req.Config.Key = StringValue.unknown) :
    (req.Config.Url = StringValue.unknown →
      unknownUrlDiagnostic ∈ (Configure getenv NewEPMClient req resp).Diagnostics) ∧
    (req.Config.Key = StringValue.unknown →
      unknownKeyDiagnostic ∈ (Configure getenv NewEPMClient req resp).Diagnostics) ∧
    unknownUrlDiagnostic.severity = Severity.error ∧
    unknownUrlDiagnostic.attributePath = some "url" ∧
    unknownKeyDiagnostic.severity = Severity.error ∧
    unknownKeyDiagnostic.attributePath = some "key" ∧
    Diagnostics.HasError (Configure getenv NewEPMClient req resp).Diagnostics = true ∧
    (Configure getenv NewEPMClient req resp).DataSourceData = none ∧
    (Configure getenv NewEPMClient req resp).ResourceData = none ∧
    (∀ (getenv2 : String → String) (NewEPMClient2 : String → String → Except String Client),
      Configure getenv2 NewEPMClient2 req resp = Configure getenv NewEPMClient req resp) := by
  have herr : Diagnostics.HasError
      (unknownChecks req.Config (Diagnostics.Append resp.Diagnostics req.getDiags)) = true := by
    rcases hunk with hu | hk
    · exact HasError_of_mem _ _ (unknownChecks_url _ _ (by rw [hu]; rfl)) rfl
    · exact HasError_of_mem _ _ (unknownChecks_key _ _ (by rw [hk]; rfl)) rfl
  have hout : ∀ (g : String → String) (n : String → String → Except String Client),
      Configure g n req resp =
        { resp with Diagnostics :=
            unknownChecks req.Config (Diagnostics.Append resp.Diagnostics req.getDiags) } := by
    intro g n
    rcases Configure_cases g n req resp with
      ⟨h0, _⟩ | ⟨_, _, h⟩ | ⟨_, h1, _⟩ | ⟨_, h1, _⟩ | ⟨_, h1, _⟩
    · rw [hdec] at h0; cases h0
    · exact h
    · rw [herr] at h1; cases h1
    · rw [herr] at h1; cases h1
    · rw [herr] at h1; cases h1
  refine ⟨?_, ?_, rfl, rfl, rfl, rfl, ?_, ?_, ?_, ?_⟩
  · intro hu
    rw [hout]
    exact unknownChecks_url _ _ (by rw [hu]; rfl)
  · intro hk
    rw [hout]
    exact unknownChecks_key _ _ (by rw [hk]; rfl)
  · rw [hout]; exact herr
  · rw [hout]; exact hD
  · rw [hout]; exact hR
  · intro g n
    rw [hout g n, hout getenv NewEPMClient]

/-- Witness for C4: the key is unknown, the url is declared and both environment
variables are set; the key error is emitted and no client is produced. -/
theorem Configure_unknown_is_fatal_witness :
    unknownKeyDiagnostic ∈
      (Configure fullEnv pairClient ⟨⟨StringValue.known "https://cfg", StringValue.unknown⟩, []⟩
        (ConfigureResponse.fresh _)).Diagnostics ∧
    (Configure fullEnv pairClient ⟨⟨StringValue.known "https://cfg", StringValue.unknown⟩, []⟩
        (ConfigureResponse.fresh _)).DataSourceData = none :=
  ⟨(Configure_unknown_is_fatal fullEnv pairClient
      ⟨⟨StringValue.known "https://cfg", StringValue.unknown⟩, []⟩ (ConfigureResponse.fresh _)
      rfl rfl rfl (Or.inr rfl)).2.1 rfl,
   (Configure_unknown_is_fatal fullEnv pairClient
      ⟨⟨StringValue.known "https://cfg", StringValue.unknown⟩, []⟩ (ConfigureResponse.fresh _)
      rfl rfl rfl (Or.inr rfl)).2.2.2.2.2.2.2.1⟩

/-- C5 as stated fails: with the url declared unknown and the key declared null
while `EPM_API_KEY` is empty, the key resolves to the empty string, yet the
returned batch is the url error alone; no diagnostic about the key is in it. -/
theorem Configure_unknown_url_hides_missing_key :
    (resolve emptyEnv ⟨StringValue.unknown, StringValue.null⟩).2 = "" ∧
    (Configure emptyEnv pairClient ⟨⟨StringValue.unknown, StringValue.null⟩, []⟩
      (ConfigureResponse.fresh _)).Diagnostics = [unknownUrlDiagnostic] ∧
    missingKeyDiagnostic ∉
      (Configure emptyEnv pairClient ⟨⟨StringValue.unknown, StringValue.null⟩, []⟩
        (ConfigureResponse.fresh _)).Diagnostics ∧
    ¬ ∃ d ∈ (Configure emptyEnv pairClient ⟨⟨StringValue.unknown, StringValue.null⟩, []⟩
        (ConfigureResponse.fresh _)).Diagnostics,
      d.attributePath ≠ some "url" := by
  have h : (Configure emptyEnv pairClient ⟨⟨StringValue.unknown, StringValue.null⟩, []⟩
      (ConfigureResponse.fresh _)).Diagnostics = [unknownUrlDiagnostic] := rfl
  refine ⟨rfl, h, ?_, ?_⟩
  · rw [h]
    simp [missingKeyDiagnostic, unknownUrlDiagnostic]
  · rw [h]
    simp [unknownUrlDiagnostic]

/-- C5, amended: `Configure` validates in two gated phases and collects the
diagnostics of both fields within each phase. When the configuration decoded
without error: every field declared unknown contributes its own error, whatever
the other field is; if some field is unknown, `Configure` returns with exactly
the diagnostics of the unknown-value checks and the empty-value checks are not
run; if no field is unknown, every field whose resolved value is empty
contributes its own missing-value error, whatever the other field resolved to. -/
theorem Configure_collects_within_each_phase {Client : Type} (getenv : String → String)
    (NewEPMClient : String → String → Except String Client)
    (req : ConfigureRequest) (resp : ConfigureResponse Client)
    (hdec : Diagnostics.HasError (Diagnostics.Append resp.Diagnostics req.getDiags) = false) :
    (req.Config.Url = StringValue.unknown →
      unknownUrlDiagnostic ∈ (Configure getenv NewEPMClient req resp).Diagnostics) ∧
    (req.Config.Key = StringValue.unknown →
      unknownKeyDiagnostic ∈ (Configure getenv NewEPMClient req resp).Diagnostics) ∧
    (req.Config.Url = StringValue.unknown ∨ req.Config.Key = StringValue.unknown →
      Configure getenv NewEPMClient req resp =
        { resp with Diagnostics :=
            unknownChecks req.Config (Diagnostics.Append resp.Diagnostics req.getDiags) }) ∧
    (req.Config.Url ≠ StringValue.unknown → req.Config.Key ≠ StringValue.unknown →
      ((resolve getenv req.Config).1 = "" →
        ∃ d ∈ (Configure getenv NewEPMClient req resp).Diagnostics,
          d.severity = Severity.error ∧ d.summary = "Missing EndPointMonitor URL") ∧
      ((resolve getenv req.Config).2 = "" →
        ∃ d ∈ (Configure getenv NewEPMClient req resp).Diagnostics,
          d.severity = Severity.error ∧ d.summary = "Missing EndPointMonitor API Key")) := by
  have hgate : req.Config.Url = StringValue.unknown ∨ req.Config.Key = StringValue.unknown →
      Configure getenv NewEPMClient req resp =
        { resp with Diagnostics :=
            unknownChecks req.Config (Diagnostics.Append resp.Diagnostics req.getDiags) } := by
    intro hunk
    have herr : Diagnostics.HasError
        (unknownChecks req.Config (Diagnostics.Append resp.Diagnostics req.getDiags)) = true := by
      rcases hunk with hu | hk
      · exact HasError_of_mem _ _ (unknownChecks_url _ _ (by rw [hu]; rfl)) rfl
      · exact HasError_of_mem _ _ (unknownChecks_key _ _ (by rw [hk]; rfl)) rfl
    rcases Configure_cases getenv NewEPMClient req resp with
      ⟨h0, _⟩ | ⟨_, _, h⟩ | ⟨_, h1, _⟩ | ⟨_, h1, _⟩ | ⟨_, h1, _⟩
    · rw [hdec] at h0; cases h0
    · exact h
    · rw [herr] at h1; cases h1
    · rw [herr] at h1; cases h1
    · rw [herr] at h1; cases h1
  refine ⟨?_, ?_, hgate, ?_⟩
  · intro hu
    rw [hgate (Or.inl hu)]
    exact unknownChecks_url _ _ (by rw [hu]; rfl)
  · intro hk
    rw [hgate (Or.inr hk)]
    exact unknownChecks_key _ _ (by rw [hk]; rfl)
  · intro hu hk
    have hu2 : req.Config.Url.IsUnknown = false := by
      cases h : req.Config.Url <;> simp_all [StringValue.IsUnknown]
    have hk2 : req.Config.Key.IsUnknown = false := by
      cases h : req.Config.Key <;> simp_all [StringValue.IsUnknown]
    have hd1 := unknownChecks_known req.Config
      (Diagnostics.Append resp.Diagnostics req.getDiags) hu2 hk2
    have hmem : ∀ d, d.severity = Severity.error →
        d ∈ missingChecks (resolve getenv req.Config).1 (resolve getenv req.Config).2
          (unknownChecks req.Config (Diagnostics.Append resp.Diagnostics req.getDiags)) →
        d ∈ (Configure getenv NewEPMClient req resp).Diagnostics := by
      intro d hsev hd
      have herr := HasError_of_mem _ _ hd hsev
      rcases Configure_cases getenv NewEPMClient req resp with
        ⟨h0, _⟩ | ⟨_, h1, _⟩ | ⟨_, _, _, h⟩ | ⟨_, _, h2, _⟩ | ⟨_, _, h2, _⟩
      · rw [hdec] at h0; cases h0
      · rw [hd1, hdec] at h1; cases h1
      · rw [h]; exact hd
      · rw [herr] at h2; cases h2
      · rw [herr] at h2; cases h2
    constructor
    · intro he
      exact ⟨missingUrlDiagnostic, hmem _ rfl (missingChecks_url _ _ _ he), rfl, rfl⟩
    · intro he
      exact ⟨missingKeyDiagnostic, hmem _ rfl (missingChecks_key _ _ _ he), rfl, rfl⟩

/-- Witness for C5 amended: both fields declared unknown give both errors, and
both fields null with an empty environment give both missing-value errors. -/
theorem Configure_collects_within_each_phase_witness :
    (unknownUrlDiagnostic ∈
      (Configure emptyEnv pairClient ⟨⟨StringValue.unknown, StringValue.unknown⟩, []⟩
        (ConfigureResponse.fresh _)).Diagnostics ∧
     unknownKeyDiagnostic ∈
      (Configure emptyEnv pairClient ⟨⟨StringValue.unknown, StringValue.unknown⟩, []⟩
        (ConfigureResponse.fresh _)).Diagnostics) ∧
    ((∃ d ∈ (Configure emptyEnv pairClient ⟨⟨StringValue.null, StringValue.null⟩, []⟩
        (ConfigureResponse.fresh _)).Diagnostics,
        d.severity = Severity.error ∧ d.summary = "Missing EndPointMonitor URL") ∧
     (∃ d ∈ (Configure emptyEnv pairClient ⟨⟨StringValue.null, StringValue.null⟩, []⟩
        (ConfigureResponse.fresh _)).Diagnostics,
        d.severity = Severity.error ∧ d.summary = "Missing EndPointMonitor API Key")) :=
  ⟨⟨(Configure_collects_within_each_phase emptyEnv pairClient
        ⟨⟨StringValue.unknown, StringValue.unknown⟩, []⟩ (ConfigureResponse.fresh _) rfl).1 rfl,
    (Configure_collects_within_each_phase emptyEnv pairClient
        ⟨⟨StringValue.unknown, StringValue.unknown⟩, []⟩ (ConfigureResponse.fresh _) rfl).2.1 rfl⟩,
   ⟨((Configure_collects_within_each_phase emptyEnv pairClient
        ⟨⟨StringValue.null, StringValue.null⟩, []⟩ (ConfigureResponse.fresh _) rfl).2.2.2
        (by decide) (by decide)).1 rfl,
    ((Configure_collects_within_each_phase emptyEnv pairClient
        ⟨⟨StringValue.null, StringValue.null⟩, []⟩ (ConfigureResponse.fresh _) rfl).2.2.2
        (by decide) (by decide)).2 rfl⟩⟩

/-- C6: starting from a response with no provider data, `Configure` sets
`DataSourceData` or `ResourceData` only together, only to the client
`NewEPMClient` built from the resolved pair, and only when the returned
diagnostics hold no error, both resolved values are non-empty and neither
declared value is unknown; whenever the returned diagnostics hold an error, both
are left unset. -/
theorem Configure_client_only_without_errors {Client : Type} (getenv : String → String)
    (NewEPMClient : String → String → Except String Client)
    (req : ConfigureRequest) (resp : ConfigureResponse Client)
    (hD : resp.DataSourceData = none) (hR : resp.ResourceData = none) :
    (∀ c, ((Configure getenv NewEPMClient req resp).DataSourceData = some c ∨
          (Configure getenv NewEPMClient req resp).ResourceData = some c) →
      Diagnostics.HasError (Configure getenv NewEPMClient req resp).Diagnostics = false ∧
      (resolve getenv req.Config).1 ≠ "" ∧
      (resolve getenv req.Config).2 ≠ "" ∧
      req.Config.Url ≠ StringValue.unknown ∧
      req.Config.Key ≠ StringValue.unknown ∧
      NewEPMClient (resolve getenv req.Config).1 (resolve getenv req.Config).2 = .ok c ∧
      (Configure getenv NewEPMClient req resp).DataSourceData = some c ∧
      (Configure getenv NewEPMClient req resp).ResourceData = some c) ∧
    (Diagnostics.HasError (Configure getenv NewEPMClient req resp).Diagnostics = true →
      (Configure getenv NewEPMClient req resp).DataSourceData = none ∧
      (Configure getenv NewEPMClient req resp).ResourceData = none) := by
  rcases Configure_cases getenv NewEPMClient req resp with
    ⟨_, h⟩ | ⟨_, _, h⟩ | ⟨_, _, _, h⟩ | ⟨_, _, _, e, _, h⟩ | ⟨_, h1, h2, c2, hn, h⟩
  · rw [h]; simp [hD, hR]
  · rw [h]; simp [hD, hR]
  · rw [h]; simp [hD, hR]
  · rw [h]; simp [hD, hR]
  · rw [h]
    have hne := missingChecks_HasError _ _ _ h2
    have hunk := unknownChecks_HasError _ _ h1
    have hu : req.Config.Url ≠ StringValue.unknown := by
      intro hx; rw [hx] at hunk; simp [StringValue.IsUnknown] at hunk
    have hk : req.Config.Key ≠ StringValue.unknown := by
      intro hx; rw [hx] at hunk; simp [StringValue.IsUnknown] at hunk
    constructor
    · intro c hc
      have hcc : c2 = c := by
        rcases hc with hc | hc <;> simpa using hc
      subst hcc
      exact ⟨h2, hne.1, hne.2, hu, hk, hn, rfl, rfl⟩
    · intro herr
      dsimp only at herr
      rw [h2] at herr; cases herr

/-- Witness for C6: a run that hands over a client. -/
theorem Configure_client_only_without_errors_witness :
    (Configure fullEnv pairClient ⟨⟨StringValue.null, StringValue.known "abc"⟩, []⟩
      (ConfigureResponse.fresh _)).DataSourceData = some ("https://env", "abc") ∧
    Diagnostics.HasError
      (Configure fullEnv pairClient ⟨⟨StringValue.null, StringValue.known "abc"⟩, []⟩
        (ConfigureResponse.fresh _)).Diagnostics = false :=
  ⟨rfl,
   ((Configure_client_only_without_errors fullEnv pairClient
      ⟨⟨StringValue.null, StringValue.known "abc"⟩, []⟩ (ConfigureResponse.fresh _) rfl rfl).1
      ("https://env", "abc") (Or.inl rfl)).1⟩

/-- C7 at its failing input: with url and key both declared null and an empty
environment, `Configure` returns exactly two errors; the one for the empty url is
attached to the attribute `host` and the one for the empty key to the attribute
`username`, so neither is attached to `url` or `key`, the attributes the
provider schema declares. -/
theorem Configure_missing_value_errors_use_other_attributes :
    (Configure emptyEnv pairClient ⟨⟨StringValue.null, StringValue.null⟩, []⟩
      (ConfigureResponse.fresh _)).Diagnostics = [missingUrlDiagnostic, missingKeyDiagnostic] ∧
    missingUrlDiagnostic.attributePath = some "host" ∧
    missingKeyDiagnostic.attributePath = some "username" ∧
    (∀ d ∈ (Configure emptyEnv pairClient ⟨⟨StringValue.null, StringValue.null⟩, []⟩
        (ConfigureResponse.fresh _)).Diagnostics,
      d.attributePath ≠ some "url" ∧ d.attributePath ≠ some "key") := by
  have h : (Configure emptyEnv pairClient ⟨⟨StringValue.null, StringValue.null⟩, []⟩
      (ConfigureResponse.fresh _)).Diagnostics = [missingUrlDiagnostic, missingKeyDiagnostic] := rfl
  refine ⟨h, rfl, rfl, ?_⟩
  rw [h]
  simp [missingUrlDiagnostic, missingKeyDiagnostic]

/-- C8 as stated fails: with the url declared as the empty string, `EPM_URL` set
to `https://x` and the key declared as `abc`, the resolved pair is `("", "abc")`,
`Configure` returns the missing-url error and no client is produced. -/
theorem Configure_empty_declared_url_fails :
    resolve urlEnv ⟨StringValue.known "", StringValue.known "abc"⟩ = ("", "abc") ∧
    Configure urlEnv pairClient ⟨⟨StringValue.known "", StringValue.known "abc"⟩, []⟩
      (ConfigureResponse.fresh _) = ⟨[missingUrlDiagnostic], none, none⟩ ∧
    Diagnostics.HasError
      (Configure urlEnv pairClient ⟨⟨StringValue.known "", StringValue.known "abc"⟩, []⟩
        (ConfigureResponse.fresh _)).Diagnostics = true :=
  ⟨rfl, rfl, rfl⟩

/-- C8, amended: with `EPM_URL` set to `https://x` and the key declared as `abc`,
a url that is not declared (null) resolves to the pair `("https://x", "abc")`, and
`Configure` returns no diagnostic and hands over the client `NewEPMClient` builds
from that pair; a url declared as the empty string overrides the environment,
resolves to the empty string and makes `Configure` end with an error and without
a client. -/
theorem Configure_null_url_falls_back {Client : Type} (getenv : String → String)
    (NewEPMClient : String → String → Except String Client)
    (henv : getenv "EPM_URL" = "https://x") :
    resolve getenv ⟨StringValue.null, StringValue.known "abc"⟩ = ("https://x", "abc") ∧
    (∀ c, NewEPMClient "https://x" "abc" = .ok c →
      Configure getenv NewEPMClient ⟨⟨StringValue.null, StringValue.known "abc"⟩, []⟩
        (ConfigureResponse.fresh Client) = ⟨[], some c, some c⟩) ∧
    resolve getenv ⟨StringValue.known "", StringValue.known "abc"⟩ = ("", "abc") ∧
    Diagnostics.HasError
      (Configure getenv NewEPMClient ⟨⟨StringValue.known "", StringValue.known "abc"⟩, []⟩
        (ConfigureResponse.fresh Client)).Diagnostics = true ∧
    (Configure getenv NewEPMClient ⟨⟨StringValue.known "", StringValue.known "abc"⟩, []⟩
        (ConfigureResponse.fresh Client)).DataSourceData = none ∧
    (Configure getenv NewEPMClient ⟨⟨StringValue.known "", StringValue.known "abc"⟩, []⟩
        (ConfigureResponse.fresh Client)).ResourceData = none := by
  have hr : resolve getenv ⟨StringValue.null, StringValue.known "abc"⟩ = ("https://x", "abc") := by
    simp [resolve, StringValue.IsNull, StringValue.ValueString, henv]
  have hr2 : resolve getenv ⟨StringValue.known "", StringValue.known "abc"⟩ = ("", "abc") := by
    simp [resolve, StringValue.IsNull, StringValue.ValueString]
  refine ⟨hr, ?_, hr2, ?_, ?_, ?_⟩
  · intro c hc
    rw [Configure_eq]
    simp only [hr]
    simp [ConfigureResponse.fresh, Append_nil, Diagnostics.HasError, unknownChecks_eq,
      missingChecks_eq, StringValue.IsUnknown, hc]
  · rw [Configure_eq]
    simp only [hr2]
    rfl
  · rw [Configure_eq]
    simp only [hr2]
    rfl
  · rw [Configure_eq]
    simp only [hr2]
    rfl

/-- Witness for C8 amended, in an environment whose `EPM_URL` is `https://x`. -/
theorem Configure_null_url_falls_back_witness :
    urlEnv "EPM_URL" = "https://x" ∧
    Configure urlEnv pairClient ⟨⟨StringValue.null, StringValue.known "abc"⟩, []⟩
      (ConfigureResponse.fresh _) = ⟨[], some ("https://x", "abc"), some ("https://x", "abc")⟩ :=
  ⟨rfl, (Configure_null_url_falls_back urlEnv pairClient rfl).2.1 ("https://x", "abc") rfl⟩

/-! ## Claims about the search data sources -/

theorem CheckDataSource_Read_error (client : EndPointMonitorClient)
    (req : ReadRequest GenericSingleDataSource64) (resp : ReadResponse GenericSingleDataSource64)
    (e : String) (hs : client.SearchChecks req.Config.Search.ValueString = .error e) :
    CheckDataSource.Read client req resp =
      ⟨Diagnostics.Append (Diagnostics.Append resp.Diagnostics req.getDiags) [checkSearchErrorDiagnostic e],
        resp.State⟩ := by
  unfold CheckDataSource.Read
  simp only [hs]
  rfl

theorem CheckDataSource_Read_not_single (client : EndPointMonitorClient)
    (req : ReadRequest GenericSingleDataSource64) (resp : ReadResponse GenericSingleDataSource64)
    (ids : List Int) (hs : client.SearchChecks req.Config.Search.ValueString = .ok ids)
    (hl : ids.length ≠ 1) :
    CheckDataSource.Read client req resp =
      ⟨Diagnostics.Append (Diagnostics.Append resp.Diagnostics req.getDiags) [notSingleDiagnostic],
        resp.State⟩ := by
  unfold CheckDataSource.Read
  simp only [hs]
  rw [dif_pos hl]
  rfl

theorem CheckDataSource_Read_single (client : EndPointMonitorClient)
    (req : ReadRequest GenericSingleDataSource64) (resp : ReadResponse GenericSingleDataSource64)
    (x : Int) (hs : client.SearchChecks req.Config.Search.ValueString = .ok [x]) :
    CheckDataSource.Read client req resp =
      { Diagnostics := Diagnostics.Append resp.Diagnostics req.getDiags,
        State := some { req.Config with Id := x } } := by
  unfold CheckDataSource.Read
  simp only [hs]
  rfl

theorem Steps_Read_error (client : EndPointMonitorClient)
    (req : ReadRequest GenericMultipleDataSource) (resp : ReadResponse GenericMultipleDataSource)
    (e : String)
    (hs : client.SearchAndroidJoureyCommonSteps req.Config.Search.ValueString = .error e) :
    AndroidJourneyCommonStepsDataSource.Read client req resp =
      ⟨Diagnostics.Append (Diagnostics.Append resp.Diagnostics req.getDiags) [stepsSearchErrorDiagnostic e],
        resp.State⟩ := by
  unfold AndroidJourneyCommonStepsDataSource.Read
  simp only [hs]
  rfl

theorem Steps_Read_ok (client : EndPointMonitorClient)
    (req : ReadRequest GenericMultipleDataSource) (resp : ReadResponse GenericMultipleDataSource)
    (ids : List Int)
    (hs : client.SearchAndroidJoureyCommonSteps req.Config.Search.ValueString = .ok ids) :
    AndroidJourneyCommonStepsDataSource.Read client req resp =
      { Diagnostics := Diagnostics.Append resp.Diagnostics req.getDiags,
        State := some { req.Config with Ids := ids } } := by
  unfold AndroidJourneyCommonStepsDataSource.Read
  simp only [hs]
  rfl

/-- C2: singleton resolution in `CheckDataSource.Read` depends on the client only
through the list a successful search returned. If the list is `[x]`, the state
is written with identifier `x` and no diagnostic is added. If the list is empty
or has two or more elements, the error diagnostic is added, the diagnostics hold
an error and the state is left as it was. Either the state is untouched or the
identifier written is an element of the list. -/
theorem CheckDataSource_Read_resolves_single (client : EndPointMonitorClient)
    (req : ReadRequest GenericSingleDataSource64) (resp : ReadResponse GenericSingleDataSource64)
    (ids : List Int) (hs : client.SearchChecks req.Config.Search.ValueString = .ok ids) :
    (∀ x, ids = [x] →
      (CheckDataSource.Read client req resp).State = some { req.Config with Id := x } ∧
      (CheckDataSource.Read client req resp).Diagnostics =
        Diagnostics.Append resp.Diagnostics req.getDiags) ∧
    (ids.length ≠ 1 →
      notSingleDiagnostic ∈ (CheckDataSource.Read client req resp).Diagnostics ∧
      Diagnostics.HasError (CheckDataSource.Read client req resp).Diagnostics = true ∧
      (CheckDataSource.Read client req resp).State = resp.State) ∧
    ((CheckDataSource.Read client req resp).State = resp.State ∨
      ∃ x ∈ ids, (CheckDataSource.Read client req resp).State = some { req.Config with Id := x }) ∧
    (∀ client2 : EndPointMonitorClient,
      client2.SearchChecks req.Config.Search.ValueString = .ok ids →
      CheckDataSource.Read client2 req resp = CheckDataSource.Read client req resp) := by
  have h1 : ∀ x, ids = [x] →
      (CheckDataSource.Read client req resp).State = some { req.Config with Id := x } ∧
      (CheckDataSource.Read client req resp).Diagnostics =
        Diagnostics.Append resp.Diagnostics req.getDiags := by
    intro x hx
    rw [hx] at hs
    rw [CheckDataSource_Read_single client req resp x hs]
    exact ⟨rfl, rfl⟩
  have h2 : ids.length ≠ 1 →
      notSingleDiagnostic ∈ (CheckDataSource.Read client req resp).Diagnostics ∧
      Diagnostics.HasError (CheckDataSource.Read client req resp).Diagnostics = true ∧
      (CheckDataSource.Read client req resp).State = resp.State := by
    intro hl
    rw [CheckDataSource_Read_not_single client req resp ids hs hl]
    exact ⟨mem_Append_singleton_self _ _, HasError_Append_error _ notSingleDiagnostic rfl, rfl⟩
  refine ⟨h1, h2, ?_, ?_⟩
  · by_cases hl : ids.length = 1
    · right
      obtain ⟨x, hx⟩ := List.length_eq_one.mp hl
      exact ⟨x, by simp [hx], (h1 x hx).1⟩
    · left
      exact (h2 hl).2.2
  · intro client2 hs2
    by_cases hl : ids.length = 1
    · obtain ⟨x, hx⟩ := List.length_eq_one.mp hl
      rw [hx] at hs hs2
      rw [CheckDataSource_Read_single client req resp x hs,
        CheckDataSource_Read_single client2 req resp x hs2]
    · rw [CheckDataSource_Read_not_single client req resp ids hs hl,
        CheckDataSource_Read_not_single client2 req resp ids hs2 hl]

/-- Witness for C2: the results `[7]` give identifier 7, and the results `[1, 2]`
give the error and no identifier. -/
theorem CheckDataSource_Read_resolves_single_witness :
    (CheckDataSource.Read (listClient [7]) (singleRequest "prod-east")
      (ReadResponse.fresh _)).State = some ⟨StringValue.known "prod-east", 7⟩ ∧
    (notSingleDiagnostic ∈ (CheckDataSource.Read (listClient [1, 2]) (singleRequest "prod-")
      (ReadResponse.fresh _)).Diagnostics ∧
     Diagnostics.HasError (CheckDataSource.Read (listClient [1, 2]) (singleRequest "prod-")
      (ReadResponse.fresh _)).Diagnostics = true ∧
     (CheckDataSource.Read (listClient [1, 2]) (singleRequest "prod-")
      (ReadResponse.fresh _)).State = none) :=
  ⟨((CheckDataSource_Read_resolves_single (listClient [7]) (singleRequest "prod-east")
      (ReadResponse.fresh _) [7] rfl).1 7 rfl).1,
   (CheckDataSource_Read_resolves_single (listClient [1, 2]) (singleRequest "prod-")
      (ReadResponse.fresh _) [1, 2] rfl).2.1 (by decide)⟩

/-- C3: for every list a successful search returned,
`AndroidJourneyCommonStepsDataSource.Read` writes exactly that list to the state
(same elements, same order, same length) and adds no diagnostic; this includes
the empty list, which is written as an empty result without any error. -/
theorem Steps_Read_returns_search_result (client : EndPointMonitorClient)
    (req : ReadRequest GenericMultipleDataSource) (resp : ReadResponse GenericMultipleDataSource)
    (ids : List Int)
    (hs : client.SearchAndroidJoureyCommonSteps req.Config.Search.ValueString = .ok ids) :
    (AndroidJourneyCommonStepsDataSource.Read client req resp).State =
      some { req.Config with Ids := ids } ∧
    (∀ m, (AndroidJourneyCommonStepsDataSource.Read client req resp).State = some m →
      m.Ids = ids ∧ m.Ids.length = ids.length ∧ m.Search = req.Config.Search) ∧
    (AndroidJourneyCommonStepsDataSource.Read client req resp).Diagnostics =
      Diagnostics.Append resp.Diagnostics req.getDiags ∧
    (ids = [] →
      (AndroidJourneyCommonStepsDataSource.Read client req resp).State =
        some { req.Config with Ids := [] } ∧
      (Diagnostics.HasError (Diagnostics.Append resp.Diagnostics req.getDiags) = false →
        Diagnostics.HasError
          (AndroidJourneyCommonStepsDataSource.Read client req resp).Diagnostics = false)) := by
  rw [Steps_Read_ok client req resp ids hs]
  refine ⟨rfl, ?_, rfl, ?_⟩
  · intro m hm
    simp only [Option.some.injEq] at hm
    subst hm
    exact ⟨rfl, rfl, rfl⟩
  · intro he
    subst he
    exact ⟨rfl, fun h => h⟩

/-- Witness for C3: a three-element result is stored in order, and the empty
result is stored as the empty list with no diagnostic. -/
theorem Steps_Read_returns_search_result_witness :
    (AndroidJourneyCommonStepsDataSource.Read (listClient [3, 1, 2]) (multipleRequest "login")
      (ReadResponse.fresh _)).State = some ⟨StringValue.known "login", [3, 1, 2]⟩ ∧
    (AndroidJourneyCommonStepsDataSource.Read (listClient []) (multipleRequest "login")
      (ReadResponse.fresh _)).State = some ⟨StringValue.known "login", []⟩ ∧
    (AndroidJourneyCommonStepsDataSource.Read (listClient []) (multipleRequest "login")
      (ReadResponse.fresh _)).Diagnostics = [] :=
  ⟨(Steps_Read_returns_search_result (listClient [3, 1, 2]) (multipleRequest "login")
      (ReadResponse.fresh _) [3, 1, 2] rfl).1,
   (Steps_Read_returns_search_result (listClient []) (multipleRequest "login")
      (ReadResponse.fresh _) [] rfl).1,
   (Steps_Read_returns_search_result (listClient []) (multipleRequest "login")
      (ReadResponse.fresh _) [] rfl).2.2.1⟩

/-- C9 as stated fails: a search returning no result and a search returning the
two results `[1, 2]` leave the very same response, whose only diagnostic is the
same error in both cases. -/
theorem CheckDataSource_Read_none_and_many_coincide :
    CheckDataSource.Read (listClient []) (singleRequest "prod-") (ReadResponse.fresh _) =
      CheckDataSource.Read (listClient [1, 2]) (singleRequest "prod-") (ReadResponse.fresh _) ∧
    (CheckDataSource.Read (listClient []) (singleRequest "prod-")
      (ReadResponse.fresh _)).Diagnostics = [notSingleDiagnostic] ∧
    (CheckDataSource.Read (listClient [1, 2]) (singleRequest "prod-")
      (ReadResponse.fresh _)).Diagnostics = [notSingleDiagnostic] :=
  ⟨rfl, rfl, rfl⟩

/-- C9, amended: `CheckDataSource.Read` reports both failure cardinalities with
one and the same error diagnostic, "None or more than one matching check found":
whenever two successful searches return lists whose lengths differ from one, be
they empty or of two or more elements, the responses are equal, and that
diagnostic is in them. It is a different diagnostic from the one reported when
the search call itself fails. -/
theorem CheckDataSource_Read_one_error_for_both (client1 client2 : EndPointMonitorClient)
    (req : ReadRequest GenericSingleDataSource64) (resp : ReadResponse GenericSingleDataSource64)
    (ids1 ids2 : List Int)
    (hs1 : client1.SearchChecks req.Config.Search.ValueString = .ok ids1)
    (hs2 : client2.SearchChecks req.Config.Search.ValueString = .ok ids2)
    (hl1 : ids1.length ≠ 1) (hl2 : ids2.length ≠ 1) :
    CheckDataSource.Read client1 req resp = CheckDataSource.Read client2 req resp ∧
    notSingleDiagnostic ∈ (CheckDataSource.Read client1 req resp).Diagnostics ∧
    (CheckDataSource.Read client1 req resp).Diagnostics =
      Diagnostics.AddError (Diagnostics.Append resp.Diagnostics req.getDiags)
        "None or more than one matching check found"
        "None or more than one matching check found when searching for single id" ∧
    (∀ e, notSingleDiagnostic ≠ checkSearchErrorDiagnostic e) := by
  rw [CheckDataSource_Read_not_single client1 req resp ids1 hs1 hl1,
    CheckDataSource_Read_not_single client2 req resp ids2 hs2 hl2]
  refine ⟨rfl, mem_Append_singleton_self _ _, rfl, ?_⟩
  intro e h
  have hsum := congrArg Diagnostic.summary h
  simp [notSingleDiagnostic, checkSearchErrorDiagnostic] at hsum

/-- Witness for C9 amended: no result against three results. -/
theorem CheckDataSource_Read_one_error_for_both_witness :
    CheckDataSource.Read (listClient []) (singleRequest "prod-") (ReadResponse.fresh _) =
      CheckDataSource.Read (listClient [4, 5, 6]) (singleRequest "prod-") (ReadResponse.fresh _) :=
  (CheckDataSource_Read_one_error_for_both (listClient []) (listClient [4, 5, 6])
    (singleRequest "prod-") (ReadResponse.fresh _) [] [4, 5, 6] rfl rfl (by decide) (by decide)).1

/-- C10: when the client search returns an error, both `CheckDataSource.Read`
and `AndroidJourneyCommonStepsDataSource.Read` append one error diagnostic whose
detail ends with the text of that error to the diagnostics of the configuration
read, and leave the state as it was: no id and no ids are stored. The collection
skips a diagnostic it already contains, so the diagnostic is a new entry, and
the only new entry, exactly when it was not there before, as on a fresh
response. -/
theorem Read_search_error_writes_no_state (client : EndPointMonitorClient) (e : String) :
    (∀ (req : ReadRequest GenericSingleDataSource64) (resp : ReadResponse GenericSingleDataSource64),
      client.SearchChecks req.Config.Search.ValueString = .error e →
      (CheckDataSource.Read client req resp).State = resp.State ∧
      (CheckDataSource.Read client req resp).Diagnostics =
        Diagnostics.AddError (Diagnostics.Append resp.Diagnostics req.getDiags)
          "Error searching check" ("Could not search check, unexpected error: " ++ e) ∧
      checkSearchErrorDiagnostic e ∈ (CheckDataSource.Read client req resp).Diagnostics ∧
      (checkSearchErrorDiagnostic e ∉ Diagnostics.Append resp.Diagnostics req.getDiags →
        (CheckDataSource.Read client req resp).Diagnostics =
          Diagnostics.Append resp.Diagnostics req.getDiags ++ [checkSearchErrorDiagnostic e])) ∧
    (∀ (req : ReadRequest GenericMultipleDataSource) (resp : ReadResponse GenericMultipleDataSource),
      client.SearchAndroidJoureyCommonSteps req.Config.Search.ValueString = .error e →
      (AndroidJourneyCommonStepsDataSource.Read client req resp).State = resp.State ∧
      (AndroidJourneyCommonStepsDataSource.Read client req resp).Diagnostics =
        Diagnostics.AddError (Diagnostics.Append resp.Diagnostics req.getDiags)
          "Error searching android journey common steps"
          ("Could not search android journey common steps, unexpected error: " ++ e) ∧
      stepsSearchErrorDiagnostic e ∈
        (AndroidJourneyCommonStepsDataSource.Read client req resp).Diagnostics ∧
      (stepsSearchErrorDiagnostic e ∉ Diagnostics.Append resp.Diagnostics req.getDiags →
        (AndroidJourneyCommonStepsDataSource.Read client req resp).Diagnostics =
          Diagnostics.Append resp.Diagnostics req.getDiags ++ [stepsSearchErrorDiagnostic e])) ∧
    (checkSearchErrorDiagnostic e).severity = Severity.error ∧
    (checkSearchErrorDiagnostic e).detail = "Could not search check, unexpected error: " ++ e ∧
    (stepsSearchErrorDiagnostic e).severity = Severity.error ∧
    (stepsSearchErrorDiagnostic e).detail =
      "Could not search android journey common steps, unexpected error: " ++ e := by
  refine ⟨?_, ?_, rfl, rfl, rfl, rfl⟩
  · intro req resp hs
    rw [CheckDataSource_Read_error client req resp e hs]
    refine ⟨rfl, rfl, mem_Append_singleton_self _ _, ?_⟩
    intro hnot
    simp only [Append_singleton, if_neg hnot]
  · intro req resp hs
    rw [Steps_Read_error client req resp e hs]
    refine ⟨rfl, rfl, mem_Append_singleton_self _ _, ?_⟩
    intro hnot
    simp only [Append_singleton, if_neg hnot]

/-- Witness for C10: a search failing with "boom" on fresh responses leaves one
diagnostic and no state, in both data sources. -/
theorem Read_search_error_writes_no_state_witness :
    ((CheckDataSource.Read (failingClient "boom") (singleRequest "prod-")
        (ReadResponse.fresh _)).State = none ∧
     (CheckDataSource.Read (failingClient "boom") (singleRequest "prod-")
        (ReadResponse.fresh _)).Diagnostics = [checkSearchErrorDiagnostic "boom"]) ∧
    ((AndroidJourneyCommonStepsDataSource.Read (failingClient "boom") (multipleRequest "login")
        (ReadResponse.fresh _)).State = none ∧
     (AndroidJourneyCommonStepsDataSource.Read (failingClient "boom") (multipleRequest "login")
        (ReadResponse.fresh _)).Diagnostics = [stepsSearchErrorDiagnostic "boom"]) :=
  ⟨⟨((Read_search_error_writes_no_state (failingClient "boom") "boom").1
        (singleRequest "prod-") (ReadResponse.fresh _) rfl).1,
    ((Read_search_error_writes_no_state (failingClient "boom") "boom").1
        (singleRequest "prod-") (ReadResponse.fresh _) rfl).2.2.2 (by simp [Diagnostics.Append, singleRequest, ReadResponse.fresh])⟩,
   ⟨((Read_search_error_writes_no_state (failingClient "boom") "boom").2.1
        (multipleRequest "login") (ReadResponse.fresh _) rfl).1,
    ((Read_search_error_writes_no_state (failingClient "boom") "boom").2.1
        (multipleRequest "login") (ReadResponse.fresh _) rfl).2.2.2 (by simp [Diagnostics.Append, multipleRequest, ReadResponse.fresh])⟩⟩

end EndPointMonitor
